import Mathlib

/-!
Verification development for the `rl-cli` command-line client
(`src/rl_cli/main.py`).  The Python functions relevant to the checked
claims are shallowly embedded below: pure helpers become Lean functions,
and the effectful `devbox_ssh` flow becomes a function producing the
sequence of side effects it performs together with its reported outcome.
Filesystem state is interpreted from that effect sequence.
-/

namespace RlCli

/-! ## Environment selection (`base_url`, `ssh_url`, main.py lines 14-28)

The environment variable `RUNLOOP_ENV` is modelled as an `Option String`
(`none` when unset).  Python truthiness of a string is `s ≠ ""`. -/

/-- Embedding of Python `str.lower` on one character (ASCII range, which
covers every value the comparison in `base_url` distinguishes). -/
def lowerChar (c : Char) : Char :=
  if 65 ≤ c.toNat ∧ c.toNat ≤ 90 then Char.ofNat (c.toNat + 32) else c

/-- Embedding of Python `str.lower`. -/
def pyLower (s : String) : String := ⟨s.data.map lowerChar⟩

/-- Embedding of `base_url` (main.py 14-21): the API base URL is the dev
endpoint when `RUNLOOP_ENV` is set, non-empty (Python truthiness) and
case-insensitively equal to `dev`; the prod endpoint otherwise. -/
def base_url (env : Option String) : String :=
  match env with
  | some e => if e ≠ "" && pyLower e == "dev"
      then "https://api.runloop.pro"
      else "https://api.runloop.ai"
  | none => "https://api.runloop.ai"

/-- Embedding of `ssh_url` (main.py 24-28): the SSH gateway is the dev
gateway exactly when `RUNLOOP_ENV` is the string `dev` (case-sensitive
comparison, unset compares unequal). -/
def ssh_url (env : Option String) : String :=
  if env == some "dev" then "ssh.runloop.pro:443" else "ssh.runloop.ai:443"

/-! ## `_parse_env_arg` (main.py 48-50)

`arg.split("=")` in Python, for the one-character separator `"="`, splits
the character sequence at every occurrence of `'='`; the tuple unpacking
`key, value = ...` raises `ValueError` unless the split has exactly two
parts.  Strings are modelled as their character lists. -/

/-- Embedding of Python `str.split("=")` on a character list: split at
every occurrence of `'='` (`"".split("=") == [""]`, separators at the
ends produce empty parts). -/
def splitEq : List Char → List (List Char)
  | [] => [[]]
  | c :: rest =>
    if c = '=' then [] :: splitEq rest
    else
      match splitEq rest with
      | [] => [[c]]
      | s :: ss => (c :: s) :: ss

/-- Embedding of `_parse_env_arg` (main.py 48-50): unpack the split into
`(key, value)`; any other number of parts raises `ValueError`, modelled
as the `error` case. -/
def parse_env_arg (arg : List Char) : Except String (List Char × List Char) :=
  match splitEq arg with
  | [key, value] => Except.ok (key, value)
  | _ => Except.error "ValueError"

/-! ## `list_devboxes` (main.py 82-88) -/

/-- A devbox as consumed by `list_devboxes`: its `status` field (absent
statuses compare unequal to any filter string) and the rendered JSON dump
that gets printed. -/
structure Devbox where
  status : Option String
  dump : String
  deriving DecidableEq

/-- The line printed for one devbox (main.py 85). -/
def devboxLine (d : Devbox) : String := "devbox=" ++ d.dump

/-- The comprehension of `list_devboxes` (main.py 84-88): iterate over the
devbox list and print each devbox whose status passes the optional filter
`args.status`.  The output is the list of printed lines, in iteration
order. -/
def listDevboxesLoop (statusFilter : Option String) : List Devbox → List String
  | [] => []
  | d :: rest =>
    if statusFilter.isNone || d.status == statusFilter then
      devboxLine d :: listDevboxesLoop statusFilter rest
    else
      listDevboxesLoop statusFilter rest

/-- Embedding of `list_devboxes` (main.py 82-88): the iteration runs over
`devboxes.devboxes or []`. -/
def list_devboxes (statusFilter : Option String) (devboxes : Option (List Devbox)) :
    List String :=
  listDevboxesLoop statusFilter (devboxes.getD [])

/-! ## The `devbox ssh` flow (`devbox_ssh`, main.py 180-218)

The flow is a straight-line script; it is embedded as a function from its
inputs (the CLI arguments, the environment, and the outcomes of the two
remote calls and of the spawned subprocess) to the list of side effects
it performs, paired with the outcome it reports to its caller.  On normal
completion the Python function returns `None` and the process exits with
code `0`; this reported result code is the `Except.ok` payload. -/

/-- Failure of a remote call: the resource does not exist, or the caller
lacks permission. -/
inductive RemoteError where
  | notFound
  | unauthorized
  deriving DecidableEq

/-- The credential bundle returned by `devbox_create_ssh_key`
(main.py 184, 186-187): the private key and the connection endpoint. -/
structure Cred where
  ssh_private_key : String
  url : String
  deriving DecidableEq

/-- One observable side effect of the flow, in program order. -/
inductive Effect where
  | remoteCall (name : String)
  | makedirs (path : String)
  | writeFile (path : String) (content : String)
  | chmod (path : String) (mode : Nat)
  | print (out : String)
  | spawn (args : List String)
  deriving DecidableEq

/-- The deterministic key file path `~/.runloop/ssh_keys/<id>.pem`
(main.py 190), with `os.path.expanduser` resolving `~` to `home`. -/
def keyfile_path (home id : String) : String :=
  home ++ "/.runloop/ssh_keys/" ++ id ++ ".pem"

/-- The config stanza printed when `--config-only` is given
(main.py 196-205), with the f-string holes filled in. -/
def sshConfigStanza (id url kp gw : String) : String :=
  "\nHost " ++ id ++
  "\n  Hostname " ++ url ++
  "\n  User user\n  IdentityFile " ++ kp ++
  "\n  StrictHostKeyChecking no\n  ProxyCommand openssl s_client -quiet -verify_quiet -servername %h -connect " ++
  gw ++ " 2>/dev/null\n            "

/-- The `ProxyCommand` string built for the subprocess (main.py 207). -/
def proxy_command (env : Option String) : String :=
  "openssl s_client -quiet -verify_quiet -servername %h -connect " ++
  ssh_url env ++ " 2> /dev/null"

/-- The argument vector handed to `subprocess.run` (main.py 208-217). -/
def ssh_command (env : Option String) (kp url : String) : List String :=
  ["/usr/bin/ssh", "-i", kp, "-o", "ProxyCommand=" ++ proxy_command env,
   "-o", "StrictHostKeyChecking=no", "user@" ++ url]

/-- Embedding of `devbox_ssh` (main.py 180-218).  `createSshKey` is the
outcome of the credential request (main.py 184), `createDevbox` the
outcome of the extra `devboxes.create()` call (main.py 185), and
`sshExitCode` the exit code of the spawned SSH subprocess; the source
discards the value `subprocess.run` returns, so on completion the flow
reports result code `0` (Python `None` return, process exit 0). -/
def devbox_ssh (home : String) (env : Option String) (id : String)
    (config_only : Bool)
    (createSshKey : Except RemoteError Cred)
    (createDevbox : Except RemoteError Unit)
    (sshExitCode : Int) : List Effect × Except RemoteError Int :=
  let callKey := Effect.remoteCall "devbox_create_ssh_key"
  match createSshKey with
  | .error e => ([callKey], Except.error e)
  | .ok result =>
    let callCreate := Effect.remoteCall "devboxes.create"
    match createDevbox with
    | .error e => ([callKey, callCreate], Except.error e)
    | .ok _ =>
      let key := result.ssh_private_key
      let url := result.url
      let kp := keyfile_path home id
      let setup := [callKey, callCreate,
        Effect.makedirs (home ++ "/.runloop/ssh_keys"),
        Effect.writeFile kp key,
        Effect.chmod kp 0o600]
      if config_only then
        (setup ++ [Effect.print (sshConfigStanza id url kp (ssh_url env))],
         Except.ok 0)
      else
        let _ := sshExitCode
        (setup ++ [Effect.spawn (ssh_command env kp url)], Except.ok 0)

/-! ## Interpreting the effect sequence over a filesystem state -/

/-- Local filesystem state: directories created, file contents and file
modes as association lists (most recent entry first). -/
structure FS where
  dirs : List String
  files : List (String × String)
  modes : List (String × Nat)
  deriving DecidableEq

/-- The empty filesystem. -/
def FS.init : FS := ⟨[], [], []⟩

/-- Apply one effect to the filesystem state (remote calls, prints and
spawns leave it unchanged; a write overwrites, `makedirs` is
`exist_ok=True`). -/
def applyEffect (fs : FS) : Effect → FS
  | Effect.makedirs p => { fs with dirs := p :: fs.dirs }
  | Effect.writeFile p c => { fs with files := (p, c) :: fs.files }
  | Effect.chmod p m => { fs with modes := (p, m) :: fs.modes }
  | _ => fs

/-- Run a sequence of effects over a filesystem state. -/
def runEffects (fs : FS) (t : List Effect) : FS := t.foldl applyEffect fs

/-- The current content of a file, if it exists. -/
def FS.content (fs : FS) (p : String) : Option String := fs.files.lookup p

/-- The current permission mode of a file, if one was ever set. -/
def FS.mode (fs : FS) (p : String) : Option Nat := fs.modes.lookup p

/-! ## Effect classifiers -/

/-- Is this effect a remote network call? -/
def isRemoteCall : Effect → Bool
  | Effect.remoteCall _ => true
  | _ => false

/-- Is this effect a local filesystem mutation (directory creation, file
write, or permission change)? -/
def isFsWrite : Effect → Bool
  | Effect.makedirs _ => true
  | Effect.writeFile _ _ => true
  | Effect.chmod _ _ => true
  | _ => false

/-- Is this effect a subprocess spawn? -/
def isSpawn : Effect → Bool
  | Effect.spawn _ => true
  | _ => false

/-- Is this effect a use of the key file (printing a stanza that
references it, or spawning SSH with it)? -/
def usesFile : Effect → Bool
  | Effect.print _ => true
  | Effect.spawn _ => true
  | _ => false

/-- The argument vector of a spawn effect. -/
def spawnArgs : Effect → Option (List String)
  | Effect.spawn a => some a
  | _ => none

/-- `containsStr s pat`: `pat` occurs as a contiguous substring of `s`. -/
def containsStr (s pat : String) : Prop :=
  ∃ a b : List Char, s.data = a ++ pat.data ++ b

/-- `securedBeforeUse t p key`: somewhere in `t` the key file `p` is
written with `key` and the very next effect restricts its mode to
`0o600`, and every use of the file comes strictly after that `chmod`. -/
def securedBeforeUse (t : List Effect) (p key : String) : Prop :=
  ∃ i, t.get? i = some (Effect.writeFile p key) ∧
    t.get? (i + 1) = some (Effect.chmod p 0o600) ∧
    ∀ j e, t.get? j = some e → usesFile e = true → i + 1 < j

/-! ## Trace-shape lemmas for the `devbox ssh` flow -/

/-- On a successful run with `--config-only`, the flow performs exactly
the six effects of main.py 184-205, in program order. -/
theorem devbox_ssh_true_eq (home : String) (env : Option String) (id key url : String)
    (code : Int) :
    devbox_ssh home env id true (.ok ⟨key, url⟩) (.ok ()) code =
      ([Effect.remoteCall "devbox_create_ssh_key",
        Effect.remoteCall "devboxes.create",
        Effect.makedirs (home ++ "/.runloop/ssh_keys"),
        Effect.writeFile (keyfile_path home id) key,
        Effect.chmod (keyfile_path home id) 0o600,
        Effect.print (sshConfigStanza id url (keyfile_path home id) (ssh_url env))],
       Except.ok 0) := rfl

/-- On a successful connecting run, the flow performs exactly the six
effects of main.py 184-218, ending with the SSH subprocess spawn. -/
theorem devbox_ssh_false_eq (home : String) (env : Option String) (id key url : String)
    (code : Int) :
    devbox_ssh home env id false (.ok ⟨key, url⟩) (.ok ()) code =
      ([Effect.remoteCall "devbox_create_ssh_key",
        Effect.remoteCall "devboxes.create",
        Effect.makedirs (home ++ "/.runloop/ssh_keys"),
        Effect.writeFile (keyfile_path home id) key,
        Effect.chmod (keyfile_path home id) 0o600,
        Effect.spawn (ssh_command env (keyfile_path home id) url)],
       Except.ok 0) := rfl

/-! ## Claim theorems -/

/-- C1 counterexample: on a run that reaches the subprocess step and
whose spawned SSH subprocess exits with code `1`, the flow still reports
result code `0` (the source discards the `subprocess.run` result and
returns `None`), so the reported code is not the subprocess's exit
code. -/
theorem c1_exit_code_counterexample :
    Effect.spawn (ssh_command none (keyfile_path "/home/user" "box-123") "host:443") ∈
      (devbox_ssh "/home/user" none "box-123" false
        (.ok ⟨"KEY", "host:443"⟩) (.ok ()) 1).1 ∧
    (devbox_ssh "/home/user" none "box-123" false
        (.ok ⟨"KEY", "host:443"⟩) (.ok ()) 1).2 ≠ Except.ok 1 := by
  constructor
  · rw [devbox_ssh_false_eq]
    simp
  · rw [devbox_ssh_false_eq]
    intro h
    exact absurd (Except.ok.inj h) (by decide)

/-- C1 amended: on every run that reaches the subprocess step
(`config_only = false`, both remote calls succeed), the flow spawns the
SSH subprocess but reports result code `0` regardless of the
subprocess's exit code. -/
theorem c1_exit_code_reported_zero (home : String) (env : Option String)
    (id key url : String) (code : Int) :
    Effect.spawn (ssh_command env (keyfile_path home id) url) ∈
      (devbox_ssh home env id false (.ok ⟨key, url⟩) (.ok ()) code).1 ∧
    (devbox_ssh home env id false (.ok ⟨key, url⟩) (.ok ()) code).2 = Except.ok 0 := by
  rw [devbox_ssh_false_eq]
  simp

/-- C1 amended witness: the zero result code evaluated on a concrete run
whose subprocess exits with code `7`. -/
theorem c1_exit_code_reported_zero_witness :
    Effect.spawn (ssh_command none (keyfile_path "/h" "box-9") "h:443") ∈
      (devbox_ssh "/h" none "box-9" false (.ok ⟨"K", "h:443"⟩) (.ok ()) 7).1 ∧
    (devbox_ssh "/h" none "box-9" false (.ok ⟨"K", "h:443"⟩) (.ok ()) 7).2 =
      Except.ok 0 :=
  c1_exit_code_reported_zero "/h" none "box-9" "K" "h:443" 7

/-- C2: the `devbox ssh` flow does not perform exactly one remote call:
on a successful run (here the concrete input `id = "box-123"`,
`config_only = true`) it performs two remote calls, the credential-bundle
request plus the extraneous `devboxes.create()` call of main.py 185. -/
theorem c2_two_remote_calls :
    (devbox_ssh "/home/user" none "box-123" true
        (.ok ⟨"KEY", "host:443"⟩) (.ok ()) 0).1.countP isRemoteCall = 2 ∧
    Effect.remoteCall "devboxes.create" ∈
      (devbox_ssh "/home/user" none "box-123" true
        (.ok ⟨"KEY", "host:443"⟩) (.ok ()) 0).1 := by
  rw [devbox_ssh_true_eq]
  constructor
  · rfl
  · simp

/-- C3: when the credential request fails (not found or unauthorized),
the flow aborts with that error before performing any filesystem
mutation: no directory creation, no file write, no chmod. -/
theorem c3_remote_failure_no_write (home : String) (env : Option String)
    (id : String) (cfg : Bool) (err : RemoteError)
    (createDevbox : Except RemoteError Unit) (code : Int) :
    (devbox_ssh home env id cfg (.error err) createDevbox code).1.countP isFsWrite = 0 ∧
    (devbox_ssh home env id cfg (.error err) createDevbox code).2 = Except.error err :=
  ⟨rfl, rfl⟩

/-- C3 witness: a not-found credential failure on a concrete invocation
leaves the filesystem untouched. -/
theorem c3_remote_failure_no_write_witness :
    (devbox_ssh "/home/user" none "box-123" true (.error RemoteError.notFound)
        (.ok ()) 0).1.countP isFsWrite = 0 ∧
    (devbox_ssh "/home/user" none "box-123" true (.error RemoteError.notFound)
        (.ok ()) 0).2 = Except.error RemoteError.notFound :=
  c3_remote_failure_no_write "/home/user" none "box-123" true RemoteError.notFound
    (.ok ()) 0

/-- C4: after every successful run (either mode), the key file exists at
the deterministic path `<home>/.runloop/ssh_keys/<id>.pem`, holds the
returned private key, has mode `0o600`, the key directory was created,
and the `chmod` immediately follows the write and precedes every use of
the file. -/
theorem c4_keyfile_secured (home : String) (env : Option String) (id key url : String)
    (cfg : Bool) (code : Int) (fs0 : FS) :
    (runEffects fs0 (devbox_ssh home env id cfg (.ok ⟨key, url⟩) (.ok ()) code).1).content
        (home ++ "/.runloop/ssh_keys/" ++ id ++ ".pem") = some key ∧
    (runEffects fs0 (devbox_ssh home env id cfg (.ok ⟨key, url⟩) (.ok ()) code).1).mode
        (home ++ "/.runloop/ssh_keys/" ++ id ++ ".pem") = some 0o600 ∧
    Effect.makedirs (home ++ "/.runloop/ssh_keys") ∈
      (devbox_ssh home env id cfg (.ok ⟨key, url⟩) (.ok ()) code).1 ∧
    securedBeforeUse (devbox_ssh home env id cfg (.ok ⟨key, url⟩) (.ok ()) code).1
      (home ++ "/.runloop/ssh_keys/" ++ id ++ ".pem") key := by
  cases cfg <;>
    [rw [devbox_ssh_false_eq]; rw [devbox_ssh_true_eq]] <;>
  · refine ⟨?_, ?_, ?_, 3, rfl, rfl, ?_⟩
    · simp [runEffects, applyEffect, FS.content, keyfile_path, List.lookup]
    · simp [runEffects, applyEffect, FS.mode, keyfile_path, List.lookup]
    · simp
    · intro j e hj hu
      rcases j with _ | _ | _ | _ | _ | j
      · obtain rfl := Option.some.inj hj
        simp [usesFile] at hu
      · obtain rfl := Option.some.inj hj
        simp [usesFile] at hu
      · obtain rfl := Option.some.inj hj
        simp [usesFile] at hu
      · obtain rfl := Option.some.inj hj
        simp [usesFile] at hu
      · obtain rfl := Option.some.inj hj
        simp [usesFile] at hu
      · omega

/-- C4 witness: the secured-key-file property evaluated at a concrete
run. -/
theorem c4_keyfile_secured_witness :
    (runEffects FS.init (devbox_ssh "/home/user" none "box-123" true
        (.ok ⟨"KEY", "host:443"⟩) (.ok ()) 0).1).content
        ("/home/user" ++ "/.runloop/ssh_keys/" ++ "box-123" ++ ".pem") = some "KEY" ∧
    (runEffects FS.init (devbox_ssh "/home/user" none "box-123" true
        (.ok ⟨"KEY", "host:443"⟩) (.ok ()) 0).1).mode
        ("/home/user" ++ "/.runloop/ssh_keys/" ++ "box-123" ++ ".pem") = some 0o600 ∧
    Effect.makedirs ("/home/user" ++ "/.runloop/ssh_keys") ∈
      (devbox_ssh "/home/user" none "box-123" true
        (.ok ⟨"KEY", "host:443"⟩) (.ok ()) 0).1 ∧
    securedBeforeUse (devbox_ssh "/home/user" none "box-123" true
        (.ok ⟨"KEY", "host:443"⟩) (.ok ()) 0).1
      ("/home/user" ++ "/.runloop/ssh_keys/" ++ "box-123" ++ ".pem") "KEY" :=
  c4_keyfile_secured "/home/user" none "box-123" "KEY" "host:443" true 0 FS.init

/-- C5: running the flow twice for the same identifier is idempotent on
the key file: starting from any residual filesystem state, after the
second successful run the file holds the second run's key and has mode
`0o600`. -/
theorem c5_rerun_overwrites (fs0 : FS) (home : String) (env1 env2 : Option String)
    (id k1 k2 u1 u2 : String) (cfg1 cfg2 : Bool) (c1 c2 : Int) :
    (runEffects (runEffects fs0 (devbox_ssh home env1 id cfg1 (.ok ⟨k1, u1⟩) (.ok ()) c1).1)
        (devbox_ssh home env2 id cfg2 (.ok ⟨k2, u2⟩) (.ok ()) c2).1).content
        (home ++ "/.runloop/ssh_keys/" ++ id ++ ".pem") = some k2 ∧
    (runEffects (runEffects fs0 (devbox_ssh home env1 id cfg1 (.ok ⟨k1, u1⟩) (.ok ()) c1).1)
        (devbox_ssh home env2 id cfg2 (.ok ⟨k2, u2⟩) (.ok ()) c2).1).mode
        (home ++ "/.runloop/ssh_keys/" ++ id ++ ".pem") = some 0o600 := by
  cases cfg1 <;> cases cfg2 <;>
    simp [devbox_ssh_false_eq, devbox_ssh_true_eq, runEffects, applyEffect,
      FS.content, FS.mode, keyfile_path, List.lookup]

/-- C5 witness: the idempotence property evaluated on two concrete
back-to-back runs with different keys. -/
theorem c5_rerun_overwrites_witness :
    (runEffects (runEffects FS.init
        (devbox_ssh "/h" none "box-1" true (.ok ⟨"K1", "u1"⟩) (.ok ()) 0).1)
        (devbox_ssh "/h" (some "dev") "box-1" false (.ok ⟨"K2", "u2"⟩) (.ok ()) 0).1).content
        ("/h" ++ "/.runloop/ssh_keys/" ++ "box-1" ++ ".pem") = some "K2" ∧
    (runEffects (runEffects FS.init
        (devbox_ssh "/h" none "box-1" true (.ok ⟨"K1", "u1"⟩) (.ok ()) 0).1)
        (devbox_ssh "/h" (some "dev") "box-1" false (.ok ⟨"K2", "u2"⟩) (.ok ()) 0).1).mode
        ("/h" ++ "/.runloop/ssh_keys/" ++ "box-1" ++ ".pem") = some 0o600 :=
  c5_rerun_overwrites FS.init "/h" none (some "dev") "box-1" "K1" "K2" "u1" "u2"
    true false 0 0

/-- The config stanza contains the resource id as host alias. -/
theorem stanza_contains_host (id url kp gw : String) :
    containsStr (sshConfigStanza id url kp gw) ("Host " ++ id) := by
  refine ⟨['\n'],
    ("\n  Hostname " ++ url ++ "\n  User user\n  IdentityFile " ++ kp ++
      "\n  StrictHostKeyChecking no\n  ProxyCommand openssl s_client -quiet -verify_quiet -servername %h -connect " ++
      gw ++ " 2>/dev/null\n            ").data, ?_⟩
  simp only [sshConfigStanza, String.data_append, List.append_assoc]
  rfl

/-- The config stanza contains the endpoint as hostname. -/
theorem stanza_contains_hostname (id url kp gw : String) :
    containsStr (sshConfigStanza id url kp gw) ("Hostname " ++ url) := by
  refine ⟨("\nHost " ++ id ++ "\n  ").data,
    ("\n  User user\n  IdentityFile " ++ kp ++
      "\n  StrictHostKeyChecking no\n  ProxyCommand openssl s_client -quiet -verify_quiet -servername %h -connect " ++
      gw ++ " 2>/dev/null\n            ").data, ?_⟩
  simp only [sshConfigStanza, String.data_append, List.append_assoc]
  rfl

/-- The config stanza contains the key file path as identity file. -/
theorem stanza_contains_identityfile (id url kp gw : String) :
    containsStr (sshConfigStanza id url kp gw) ("IdentityFile " ++ kp) := by
  refine ⟨("\nHost " ++ id ++ "\n  Hostname " ++ url ++ "\n  User user\n  ").data,
    ("\n  StrictHostKeyChecking no\n  ProxyCommand openssl s_client -quiet -verify_quiet -servername %h -connect " ++
      gw ++ " 2>/dev/null\n            ").data, ?_⟩
  simp only [sshConfigStanza, String.data_append, List.append_assoc]
  rfl

/-- The config stanza contains a proxy command dialing the gateway. -/
theorem stanza_contains_proxy (id url kp gw : String) :
    containsStr (sshConfigStanza id url kp gw)
      ("ProxyCommand openssl s_client -quiet -verify_quiet -servername %h -connect " ++ gw) := by
  refine ⟨("\nHost " ++ id ++ "\n  Hostname " ++ url ++ "\n  User user\n  IdentityFile " ++
      kp ++ "\n  StrictHostKeyChecking no\n  ").data,
    (" 2>/dev/null\n            ").data, ?_⟩
  simp only [sshConfigStanza, String.data_append, List.append_assoc]
  rfl

/-- C6: with `--config-only` the flow spawns no subprocess, returns
normally, and prints a stanza containing the resource id as host alias,
the resolved endpoint as hostname, the deterministic key file path as
identity file, and a proxy command referencing the fixed gateway
endpoint. -/
theorem c6_config_only_stanza (home : String) (env : Option String)
    (id key url : String) (code : Int) :
    (devbox_ssh home env id true (.ok ⟨key, url⟩) (.ok ()) code).1.countP isSpawn = 0 ∧
    (devbox_ssh home env id true (.ok ⟨key, url⟩) (.ok ()) code).2 = Except.ok 0 ∧
    ∃ out, Effect.print out ∈ (devbox_ssh home env id true (.ok ⟨key, url⟩) (.ok ()) code).1 ∧
      containsStr out ("Host " ++ id) ∧
      containsStr out ("Hostname " ++ url) ∧
      containsStr out ("IdentityFile " ++ keyfile_path home id) ∧
      containsStr out
        ("ProxyCommand openssl s_client -quiet -verify_quiet -servername %h -connect " ++
          ssh_url env) := by
  rw [devbox_ssh_true_eq]
  exact ⟨rfl, rfl, sshConfigStanza id url (keyfile_path home id) (ssh_url env),
    by simp,
    stanza_contains_host id url (keyfile_path home id) (ssh_url env),
    stanza_contains_hostname id url (keyfile_path home id) (ssh_url env),
    stanza_contains_identityfile id url (keyfile_path home id) (ssh_url env),
    stanza_contains_proxy id url (keyfile_path home id) (ssh_url env)⟩

/-- C6 witness: the config-only properties evaluated on a concrete
run. -/
theorem c6_config_only_stanza_witness :
    (devbox_ssh "/h" none "box-7" true (.ok ⟨"K", "ep:443"⟩) (.ok ()) 0).1.countP
        isSpawn = 0 ∧
    (devbox_ssh "/h" none "box-7" true (.ok ⟨"K", "ep:443"⟩) (.ok ()) 0).2 =
      Except.ok 0 ∧
    ∃ out, Effect.print out ∈
        (devbox_ssh "/h" none "box-7" true (.ok ⟨"K", "ep:443"⟩) (.ok ()) 0).1 ∧
      containsStr out ("Host " ++ "box-7") ∧
      containsStr out ("Hostname " ++ "ep:443") ∧
      containsStr out ("IdentityFile " ++ keyfile_path "/h" "box-7") ∧
      containsStr out
        ("ProxyCommand openssl s_client -quiet -verify_quiet -servername %h -connect " ++
          ssh_url none) :=
  c6_config_only_stanza "/h" none "box-7" "K" "ep:443" 0

/-- C7: without `--config-only` the flow spawns exactly one subprocess,
whose argument vector has `-i` immediately followed by the key file
path, a `ProxyCommand` option wrapping the TLS-client dial to the fixed
gateway endpoint, strict host-key checking disabled, and the target
`user@<endpoint>`. -/
theorem c7_connect_spawns_ssh (home : String) (env : Option String)
    (id key url : String) (code : Int) :
    ∃ cmd, (devbox_ssh home env id false (.ok ⟨key, url⟩) (.ok ()) code).1.filterMap
        spawnArgs = [cmd] ∧
      cmd.get? 1 = some "-i" ∧
      cmd.get? 2 = some (keyfile_path home id) ∧
      ("ProxyCommand=openssl s_client -quiet -verify_quiet -servername %h -connect " ++
        ssh_url env ++ " 2> /dev/null") ∈ cmd ∧
      "StrictHostKeyChecking=no" ∈ cmd ∧
      ("user@" ++ url) ∈ cmd := by
  rw [devbox_ssh_false_eq]
  refine ⟨ssh_command env (keyfile_path home id) url, rfl, rfl, rfl, ?_,
    by simp [ssh_command], by simp [ssh_command]⟩
  have h : ("ProxyCommand=openssl s_client -quiet -verify_quiet -servername %h -connect " ++
      ssh_url env ++ " 2> /dev/null") = "ProxyCommand=" ++ proxy_command env := by
    simp only [proxy_command, String.append_assoc]
    rfl
  rw [h]
  simp [ssh_command]

/-- C7 witness: the single-spawn properties evaluated on a concrete
run. -/
theorem c7_connect_spawns_ssh_witness :
    ∃ cmd, (devbox_ssh "/h" none "box-8" false (.ok ⟨"K", "ep:443"⟩) (.ok ()) 0).1.filterMap
        spawnArgs = [cmd] ∧
      cmd.get? 1 = some "-i" ∧
      cmd.get? 2 = some (keyfile_path "/h" "box-8") ∧
      ("ProxyCommand=openssl s_client -quiet -verify_quiet -servername %h -connect " ++
        ssh_url none ++ " 2> /dev/null") ∈ cmd ∧
      "StrictHostKeyChecking=no" ∈ cmd ∧
      ("user@" ++ "ep:443") ∈ cmd :=
  c7_connect_spawns_ssh "/h" none "box-8" "K" "ep:443" 0

/-- The source's filter condition agrees with the propositional
status-only condition of the spec. -/
theorem keep_cond_eq (f : Option String) (d : Devbox) :
    (f.isNone || (d.status == f)) = decide (f = none ∨ d.status = f) := by
  cases f with
  | none => simp
  | some s =>
    by_cases h : d.status = some s
    · simp [h]
    · simp [h]

/-- The printing comprehension keeps exactly the devboxes passing the
status condition, in order, and applies nothing else. -/
theorem listDevboxesLoop_eq_filter (f : Option String) (dbs : List Devbox) :
    listDevboxesLoop f dbs =
      (dbs.filter fun d => decide (f = none ∨ d.status = f)).map devboxLine := by
  induction dbs with
  | nil => rfl
  | cons d rest ih =>
    rw [listDevboxesLoop, List.filter_cons, ← keep_cond_eq f d]
    by_cases h : (f.isNone || (d.status == f)) = true
    · rw [if_pos h, if_pos h, List.map_cons, ih]
    · rw [if_neg h, if_neg h, ih]

/-- C8: `devbox list` filters only by the status field: the printed
lines are exactly the dumps of the devboxes whose status passes the
optional filter (every devbox is printed iff the filter is absent or its
status equals the filter), in response order, with no other
transformation; an absent devbox list prints nothing. -/
theorem c8_list_filters_by_status (f : Option String) (dbs : List Devbox) :
    list_devboxes f (some dbs) =
      (dbs.filter fun d => decide (f = none ∨ d.status = f)).map devboxLine ∧
    list_devboxes f none = [] :=
  ⟨listDevboxesLoop_eq_filter f dbs, rfl⟩

/-- C8 witness: the filter equation evaluated on a concrete response
with a `running` filter. -/
theorem c8_list_filters_by_status_witness :
    list_devboxes (some "running")
        (some [⟨some "running", "A"⟩, ⟨some "stopped", "B"⟩]) =
      (([⟨some "running", "A"⟩, ⟨some "stopped", "B"⟩] : List Devbox).filter
        fun d => decide (some "running" = none ∨ d.status = some "running")).map
          devboxLine ∧
    list_devboxes (some "running") none = [] :=
  c8_list_filters_by_status (some "running")
    [⟨some "running", "A"⟩, ⟨some "stopped", "B"⟩]

/-- `splitEq` never returns an empty list of parts. -/
theorem splitEq_ne_nil (s : List Char) : splitEq s ≠ [] := by
  induction s with
  | nil => simp [splitEq]
  | cons c rest ih =>
    by_cases h : c = '='
    · simp [splitEq, h]
    · rcases hs : splitEq rest with _ | ⟨s0, ss⟩
      · exact absurd hs ih
      · simp [splitEq, h, hs]

/-- Splitting a string without the separator yields the single part. -/
theorem splitEq_no_sep (s : List Char) (h : '=' ∉ s) : splitEq s = [s] := by
  induction s with
  | nil => rfl
  | cons c rest ih =>
    have hc : c ≠ '=' := fun e => h (e ▸ List.mem_cons_self c rest)
    have hr : '=' ∉ rest := fun hm => h (List.mem_cons_of_mem _ hm)
    simp [splitEq, hc, ih hr]

/-- The number of parts is one more than the number of separators. -/
theorem splitEq_length (s : List Char) : (splitEq s).length = s.count '=' + 1 := by
  induction s with
  | nil => rfl
  | cons c rest ih =>
    by_cases h : c = '='
    · subst h
      simp [splitEq, List.count_cons, ih]
    · rcases hs : splitEq rest with _ | ⟨s0, ss⟩
      · exact absurd hs (splitEq_ne_nil rest)
      · rw [hs] at ih
        simp only [List.length_cons] at ih
        simp [splitEq, h, hs, List.count_cons, ih]

/-- Splitting `key=value` (no further separator) yields the two parts. -/
theorem splitEq_pair (k v : List Char) (hk : '=' ∉ k) (hv : '=' ∉ v) :
    splitEq (k ++ '=' :: v) = [k, v] := by
  induction k with
  | nil => simp [splitEq, splitEq_no_sep v hv]
  | cons c k ih =>
    have hc : c ≠ '=' := fun e => hk (e ▸ List.mem_cons_self c k)
    have hk2 : '=' ∉ k := fun hm => hk (List.mem_cons_of_mem _ hm)
    simp [splitEq, hc, ih hk2]

/-- C9: `_parse_env_arg` accepts exactly the strings with a single `=`
separator: every input `key=value` (no further `=` in key or value)
parses to the pair `(key, value)`, and every input whose number of `=`
occurrences differs from one raises `ValueError`. -/
theorem c9_parse_env_arg :
    (∀ k v : List Char, '=' ∉ k → '=' ∉ v →
      parse_env_arg (k ++ '=' :: v) = Except.ok (k, v)) ∧
    (∀ s : List Char, s.count '=' ≠ 1 →
      parse_env_arg s = Except.error "ValueError") := by
  constructor
  · intro k v hk hv
    unfold parse_env_arg
    rw [splitEq_pair k v hk hv]
  · intro s h
    have hl := splitEq_length s
    unfold parse_env_arg
    rcases hs : splitEq s with _ | ⟨a, _ | ⟨b, _ | rest⟩⟩
    · rfl
    · rfl
    · rw [hs] at hl
      simp only [List.length_cons, List.length_nil] at hl
      omega
    · rfl

/-- C9 witness: `KEY=VAL` parses to the pair, `a=b=c` is rejected. -/
theorem c9_parse_env_arg_witness :
    parse_env_arg ("KEY".data ++ '=' :: "VAL".data) =
      Except.ok ("KEY".data, "VAL".data) ∧
    parse_env_arg "a=b=c".data = Except.error "ValueError" :=
  ⟨c9_parse_env_arg.1 "KEY".data "VAL".data (by decide) (by decide),
   c9_parse_env_arg.2 "a=b=c".data (by decide)⟩

/-- C10: environment selection is inconsistent: `base_url` selects the
dev endpoint for every non-empty `RUNLOOP_ENV` whose lowercase form is
`dev`, while `ssh_url` selects the dev gateway exactly when
`RUNLOOP_ENV` is literally `dev`; in particular for `RUNLOOP_ENV = "DEV"`
the API targets dev while the SSH gateway is the prod one. -/
theorem c10_env_selection_mismatch :
    (∀ e : String, e ≠ "" → pyLower e = "dev" →
      base_url (some e) = "https://api.runloop.pro") ∧
    (∀ env : Option String, ssh_url env = "ssh.runloop.pro:443" ↔ env = some "dev") ∧
    base_url (some "DEV") = "https://api.runloop.pro" ∧
    ssh_url (some "DEV") = "ssh.runloop.ai:443" := by
  refine ⟨?_, ?_, by decide, by decide⟩
  · intro e he hl
    simp [base_url, he, hl]
  · intro env
    by_cases h : env = some "dev" <;> simp [ssh_url, h]

/-- C10 witness: instantiating the mismatch at `RUNLOOP_ENV = "Dev"` and
`"DEV"`. -/
theorem c10_env_selection_mismatch_witness :
    base_url (some "Dev") = "https://api.runloop.pro" ∧
    (ssh_url (some "DEV") = "ssh.runloop.pro:443" ↔ some "DEV" = some "dev") :=
  ⟨c10_env_selection_mismatch.1 "Dev" (by decide) (by decide),
   c10_env_selection_mismatch.2.1 (some "DEV")⟩

end RlCli
